import Mathlib

/-
Verification of the interview-state progression logic of the Virtual
Interviewer backend (src/backend/main.py), as a shallow embedding in Lean.
Turns, the state analyzer, the phase progression, the response normalizer,
the anti-repetition post-check and the step handler are translated from the
Python source; the external JSON parser and completion client are modelled
as abstract parameters.
-/

namespace VirtualInterviewer

/-- One past turn of the interview, mirroring the pydantic `HistoryItem`
model: `question: str`, `answer: str`, `topic: Optional[str] = None`,
`phase: Optional[str] = "general"`. -/
structure HistoryItem where
  question : String
  answer : String
  topic : Option String := none
  phase : Option String := some "general"
deriving Repr, DecidableEq, Inhabited

/-- Python truthiness of an optional string: `None` and `""` are falsy. -/
def truthy : Option String → Bool
  | none => false
  | some s => !(s == "")

/-- `INTERVIEW_PHASES`, keeping only the `max_questions` attribute that the
control flow reads (the `focus` text is used only inside prompt strings).
The list order is the dict insertion order of the source. -/
def INTERVIEW_PHASES : List (String × Nat) :=
  [("introduction", 2), ("experience", 4), ("technical", 3),
   ("behavioral", 3), ("closing", 2)]

/-- The dict returned by `analyze_interview_state`. -/
structure InterviewState where
  current_phase : String
  questions_in_phase : Nat
  current_topic : Option String
  followup_count : Nat
  should_change_topic : Bool
  should_change_phase : Bool
  should_end_interview : Bool
  total_questions : Nat
  recent_questions : List String
  last_answer_length : Nat
  is_repetitive : Bool
deriving Repr, DecidableEq, Inhabited

/-- The dict returned by `analyze_interview_state` on an empty history
(the early-return branch; it carries no `is_repetitive` key, and no code
path reads that key on the empty history, so it is set to `false`). -/
def initialState : InterviewState :=
  { current_phase := "introduction"
    questions_in_phase := 0
    current_topic := none
    followup_count := 0
    should_change_topic := false
    should_change_phase := false
    should_end_interview := false
    total_questions := 0
    recent_questions := []
    last_answer_length := 0
    is_repetitive := false }

/-- Python `str.lower()` (on the ASCII text this program handles). -/
def pyLower (s : String) : String :=
  String.mk (s.toList.map Char.toLower)

/-- Python `str.strip()`: drop leading and trailing whitespace. -/
def pyStrip (s : String) : String :=
  String.mk (((s.toList.dropWhile Char.isWhitespace).reverse.dropWhile
    Char.isWhitespace).reverse)

/-- Split a character list at every whitespace character, keeping empty
pieces. -/
def splitOnWs : List Char → List (List Char)
  | [] => [[]]
  | c :: rest =>
    if c.isWhitespace then [] :: splitOnWs rest
    else
      match splitOnWs rest with
      | [] => [[c]]
      | w :: ws => (c :: w) :: ws

/-- Python `str.split()` with no argument: split on whitespace and drop
empty pieces. -/
def pySplit (s : String) : List String :=
  ((splitOnWs s.toList).map String.mk).filter (fun w => !(w == ""))

/-- The backward scan of `analyze_interview_state` counting consecutive
turns on `current_topic`; the argument list is the reversed history
(`for item in reversed(history)` with a `break` on the first mismatch). -/
def countFollowups (current_topic : Option String) : List HistoryItem → Nat
  | [] => 0
  | item :: rest =>
    if item.topic == current_topic && truthy current_topic then
      countFollowups current_topic rest + 1
    else 0

/-- `analyze_interview_state(history)` translated from the source.  The
non-empty branch is expressed by matching on the reversed history, whose
head is `history[-1]`. -/
def analyze_interview_state (history : List HistoryItem) : InterviewState :=
  match history.reverse with
  | [] => initialState
  | last :: restRev =>
    let current_phase :=
      if truthy last.phase then last.phase.getD "introduction" else "introduction"
    let questions_in_phase :=
      (history.filter (fun h2 => h2.phase == some current_phase)).length
    let total_questions := history.length
    let current_topic := if truthy last.topic then last.topic else none
    let followup_count := countFollowups current_topic (last :: restRev)
    let recent_questions :=
      (((last :: restRev).take 3).reverse).map (fun h2 => pyLower h2.question)
    let last_question := pyLower last.question
    let is_repetitive := decide (1 < recent_questions.count last_question)
    let last_answer_length :=
      if truthy (some last.answer) then (pySplit last.answer).length else 0
    let should_end_interview :=
      (current_phase == "closing" && decide (questions_in_phase ≥ 2)) ||
        decide (total_questions ≥ 15)
    let max_questions_in_phase := (INTERVIEW_PHASES.lookup current_phase).getD 3
    let should_change_phase :=
      decide (questions_in_phase ≥ max_questions_in_phase) && !should_end_interview
    let should_change_topic :=
      decide (followup_count ≥ 3) || is_repetitive ||
        (decide (followup_count ≥ 2) && decide (last_answer_length ≤ 5))
    { current_phase := current_phase
      questions_in_phase := questions_in_phase
      current_topic := current_topic
      followup_count := followup_count
      should_change_topic := should_change_topic
      should_change_phase := should_change_phase
      should_end_interview := should_end_interview
      total_questions := total_questions
      recent_questions := recent_questions
      last_answer_length := last_answer_length
      is_repetitive := is_repetitive }

/-- The ordered phase list `list(INTERVIEW_PHASES.keys())`. -/
def phases : List String := INTERVIEW_PHASES.map Prod.fst

/-- `get_next_phase(current_phase)`: index of the current phase in the
ordered list, advanced by one and clamped to the last entry; the
`ValueError` branch of `list.index` returns `"introduction"`. -/
def get_next_phase (current_phase : String) : String :=
  match phases.findIdx? (fun p => p == current_phase) with
  | some current_index =>
    phases.getD (min (current_index + 1) (phases.length - 1)) "introduction"
  | none => "introduction"

/-- The four actions the question generator can take. -/
inductive PolicyAction
  | endInterview
  | new_phase
  | new_topic
  | followup
deriving Repr, DecidableEq

/-- The action-selection head of `generate_question` (lines 262-281 of the
source): end check first, then phase change, then topic change, then
followup, each with its target phase (`"completed"` for the end branch). -/
def decideAction (state : InterviewState) : PolicyAction × String :=
  if state.should_end_interview then (PolicyAction.endInterview, "completed")
  else if state.should_change_phase then
    (PolicyAction.new_phase, get_next_phase state.current_phase)
  else if state.should_change_topic then
    (PolicyAction.new_topic, state.current_phase)
  else (PolicyAction.followup, state.current_phase)

/-- The question/tip/topic triple handled by `clean_json_response` and the
post-check (a Python dict with these three keys downstream). -/
structure CleanedResponse where
  question : String
  advisor_tip : String
  topic : Option String
deriving Repr, DecidableEq, Inhabited

/-- Index of the first occurrence of a character in a list. -/
def firstIdxOf (c : Char) : List Char → Option Nat
  | [] => none
  | x :: xs => if x == c then some 0 else (firstIdxOf c xs).map (· + 1)

/-- Index of the last occurrence of a character in a list. -/
def lastIdxOf (c : Char) (cs : List Char) : Option Nat :=
  (firstIdxOf c cs.reverse).map (fun k => cs.length - 1 - k)

/-- The regex search of `clean_json_response`: a greedy brace-to-brace
pattern with DOTALL matches from the first opening brace to the last
closing brace after it, when both exist. -/
def find_json_match (s : String) : Option String :=
  let cs := s.toList
  match firstIdxOf '\x7b' cs, lastIdxOf '\x7d' cs with
  | some i, some j =>
    if i < j then some (String.mk ((cs.drop i).take (j - i + 1))) else none
  | _, _ => none

/-- `clean_json_response(response_text)`, with `json.loads` (an external
standard-library call) abstracted as a parameter returning `none` exactly
when the Python call would raise `JSONDecodeError`. -/
def clean_json_response (parseJson : String → Option CleanedResponse)
    (response_text : String) : CleanedResponse :=
  match find_json_match response_text with
  | some json_str =>
    match parseJson json_str with
    | some parsed => parsed
    | none =>
      { question := "Can you tell me more about your experience?"
        advisor_tip := "Provide specific examples with measurable results."
        topic := some "experience" }
  | none =>
    { question := pyStrip response_text
      advisor_tip := "Focus on providing specific examples."
      topic := none }

/-- Python substring membership `needle in hay` on character lists. -/
def listSubstr (needle : List Char) : List Char → Bool
  | [] => needle.isEmpty
  | c :: rest => needle.isPrefixOf (c :: rest) || listSubstr needle rest

/-- The fixed triple the post-check substitutes when the generated
question overlaps a recent question. -/
def anti_repetition_fallback : CleanedResponse :=
  { question := "Let\x27s shift focus. Can you tell me about a specific project or achievement you\x27re particularly proud of?"
    advisor_tip := "Choose something that showcases your skills and impact."
    topic := some "achievements" }

/-- The anti-repetition post-check of `generate_question` (lines 448-456):
if the lower-cased question is a substring of, or contains, any recent
question, the result is replaced by the fixed fallback triple. -/
def post_check (result : CleanedResponse) (recent_questions : List String) :
    CleanedResponse :=
  let new_question := pyLower result.question
  if recent_questions.any (fun recent_q =>
      listSubstr new_question.toList recent_q.toList ||
        listSubstr recent_q.toList new_question.toList) then
    anti_repetition_fallback
  else result

/-- The pydantic `InterviewResponse` model. -/
structure InterviewResponse where
  question : String
  advisor_tip : String
  phase : String
  topic : Option String := none
  is_followup : Bool := false
deriving Repr, DecidableEq, Inhabited

/-- The `interview_progress` sub-dict of the step response; the fallback
body carries no `total_questions` key. -/
structure InterviewProgress where
  current_phase : String
  questions_asked : Nat
  phase_progress : String
  total_questions : Option Nat
deriving Repr, DecidableEq

/-- A step response together with its HTTP status code. -/
structure StepResult where
  status : Nat
  question : String
  advisor_tip : String
  phase : String
  topic : Option String
  is_followup : Bool
  is_completed : Bool
  progress : InterviewProgress
deriving Repr, DecidableEq

/-- The `/step` handler: the analyze/generate pipeline is abstracted as an
`Except` value (`analyze_interview_state` is total; the completion call
inside `generate_question` is the effectful part), and the catch-all
`except` branch returns the fixed fallback body with HTTP success. -/
def interview_step (history : List HistoryItem)
    (pipeline : Except String InterviewResponse) : StepResult :=
  match pipeline with
  | Except.ok response =>
    let state := analyze_interview_state history
    { status := 200
      question := response.question
      advisor_tip := response.advisor_tip
      phase := response.phase
      topic := response.topic
      is_followup := response.is_followup
      is_completed := response.phase == "completed"
      progress :=
        { current_phase := response.phase
          questions_asked := history.length
          phase_progress :=
            toString state.questions_in_phase ++ "/" ++
              toString ((INTERVIEW_PHASES.lookup response.phase).getD 3)
          total_questions := some state.total_questions } }
  | Except.error _ =>
    { status := 200
      question := "Is there anything else you\x27d like to share about your experience?"
      advisor_tip := "Feel free to elaborate on any relevant experiences."
      phase := "general"
      topic := none
      is_followup := false
      is_completed := false
      progress :=
        { current_phase := "general"
          questions_asked := history.length
          phase_progress := "unknown"
          total_questions := none } }

/-- Modelled from the spec: the length of the maximal suffix of the
history whose turns all carry topic `t`, scanning from the end backward
and stopping at the first turn with a different or absent topic.  This is
the specification-side description of `followup_count`, to be compared
with the analyzer. -/
def specTopicSuffixLen (t : String) (history : List HistoryItem) : Nat :=
  go history.reverse
where
  go : List HistoryItem → Nat
    | [] => 0
    | x :: xs => if x.topic = some t then go xs + 1 else 0

/-! Helper lemmas shared by the claim theorems. -/

lemma exists_reverse_cons (history : List HistoryItem) (hne : history ≠ []) :
    ∃ last restRev, history.reverse = last :: restRev := by
  cases hr : history.reverse with
  | nil => exact absurd (List.reverse_eq_nil_iff.mp hr) hne
  | cons a l => exact ⟨a, l, rfl⟩

lemma getLast_eq_of_reverse_cons (history : List HistoryItem)
    (last : HistoryItem) (restRev : List HistoryItem)
    (hr : history.reverse = last :: restRev) (hne : history ≠ []) :
    history.getLast hne = last := by
  have h1 : history.getLast? = some last := by
    rw [← List.head?_reverse, hr, List.head?_cons]
  rw [List.getLast?_eq_getLast_of_ne_nil hne] at h1
  exact Option.some.inj h1

lemma analyze_eq (history : List HistoryItem) (last : HistoryItem)
    (restRev : List HistoryItem) (hr : history.reverse = last :: restRev) :
    analyze_interview_state history =
      (let current_phase :=
        if truthy last.phase then last.phase.getD "introduction" else "introduction"
      let questions_in_phase :=
        (history.filter (fun h2 => h2.phase == some current_phase)).length
      let total_questions := history.length
      let current_topic := if truthy last.topic then last.topic else none
      let followup_count := countFollowups current_topic (last :: restRev)
      let recent_questions :=
        (((last :: restRev).take 3).reverse).map (fun h2 => pyLower h2.question)
      let last_question := pyLower last.question
      let is_repetitive := decide (1 < recent_questions.count last_question)
      let last_answer_length :=
        if truthy (some last.answer) then (pySplit last.answer).length else 0
      let should_end_interview :=
        (current_phase == "closing" && decide (questions_in_phase ≥ 2)) ||
          decide (total_questions ≥ 15)
      let max_questions_in_phase := (INTERVIEW_PHASES.lookup current_phase).getD 3
      let should_change_phase :=
        decide (questions_in_phase ≥ max_questions_in_phase) && !should_end_interview
      let should_change_topic :=
        decide (followup_count ≥ 3) || is_repetitive ||
          (decide (followup_count ≥ 2) && decide (last_answer_length ≤ 5))
      { current_phase := current_phase
        questions_in_phase := questions_in_phase
        current_topic := current_topic
        followup_count := followup_count
        should_change_topic := should_change_topic
        should_change_phase := should_change_phase
        should_end_interview := should_end_interview
        total_questions := total_questions
        recent_questions := recent_questions
        last_answer_length := last_answer_length
        is_repetitive := is_repetitive }) := by
  unfold analyze_interview_state
  rw [hr]

lemma should_end_of_long (history : List HistoryItem)
    (h15 : 15 ≤ history.length) :
    (analyze_interview_state history).should_end_interview = true := by
  have hne : history ≠ [] := by
    intro h0
    subst h0
    exact absurd h15 (by decide)
  obtain ⟨last, restRev, hr⟩ := exists_reverse_cons history hne
  rw [analyze_eq history last restRev hr]
  have hd : decide (history.length ≥ 15) = true := decide_eq_true h15
  simp only [hd, Bool.or_true]

/-- A generic sample turn used by concrete witnesses. -/
def sampleTurn : HistoryItem :=
  { question := "q", answer := "a", topic := none, phase := some "technical" }

/-- Claim C1: the analyzer sets should_end_interview exactly when the
current phase is closing with at least 2 questions in that phase (2 being
the closing max_questions) or the history holds at least 15 turns; any
history of 15 or more turns therefore ends regardless of phase. -/
theorem C1_should_end_interview_iff (history : List HistoryItem) :
    ((analyze_interview_state history).should_end_interview = true ↔
      (((analyze_interview_state history).current_phase = "closing" ∧
        2 ≤ (analyze_interview_state history).questions_in_phase) ∨
        15 ≤ history.length)) ∧
    (INTERVIEW_PHASES.lookup "closing").getD 3 = 2 ∧
    (15 ≤ history.length →
      (analyze_interview_state history).should_end_interview = true) := by
  refine ⟨?_, by decide, fun h15 => should_end_of_long history h15⟩
  by_cases hne : history = []
  · subst hne
    simp [analyze_interview_state, initialState]
  · obtain ⟨last, restRev, hr⟩ := exists_reverse_cons history hne
    rw [analyze_eq history last restRev hr]
    simp [Bool.or_eq_true, Bool.and_eq_true, decide_eq_true_eq, beq_iff_eq,
      ge_iff_le]

/-- Witness for C1 at a concrete 15-turn history. -/
theorem C1_should_end_interview_iff_witness :
    (analyze_interview_state (List.replicate 15 sampleTurn)).should_end_interview
      = true :=
  (C1_should_end_interview_iff (List.replicate 15 sampleTurn)).2.2 (by decide)

/-- A state with should_change_topic set and the other flags clear, used
as concrete witness input for the policy theorem. -/
def sampleTopicChangeState : InterviewState :=
  { current_phase := "technical"
    questions_in_phase := 1
    current_topic := some "X"
    followup_count := 3
    should_change_topic := true
    should_change_phase := false
    should_end_interview := false
    total_questions := 5
    recent_questions := []
    last_answer_length := 2
    is_repetitive := false }

/-- Claim C2: the policy head decides with priority end, phase change,
topic change, followup: it never yields a followup when a phase or topic
change is flagged, and a new_phase action targets the next phase of the
fixed ordering, with closing clamped to itself. -/
theorem C2_policy_priority (state : InterviewState) :
    ((state.should_change_phase = true ∨ state.should_change_topic = true) →
      (decideAction state).1 ≠ PolicyAction.followup) ∧
    ((decideAction state).1 = PolicyAction.new_phase →
      (decideAction state).2 = get_next_phase state.current_phase) ∧
    get_next_phase "introduction" = "experience" ∧
    get_next_phase "experience" = "technical" ∧
    get_next_phase "technical" = "behavioral" ∧
    get_next_phase "behavioral" = "closing" ∧
    get_next_phase "closing" = "closing" := by
  refine ⟨?_, ?_, by decide, by decide, by decide, by decide, by decide⟩
  · intro hflag
    unfold decideAction
    split_ifs with h1 h2 h3 <;> simp_all
  · intro hact
    unfold decideAction at hact ⊢
    split_ifs at hact ⊢
    all_goals simp_all

/-- Witness for C2 at a concrete state with the topic-change flag set. -/
theorem C2_policy_priority_witness :
    (decideAction sampleTopicChangeState).1 ≠ PolicyAction.followup :=
  (C2_policy_priority sampleTopicChangeState).1 (Or.inr rfl)

lemma pyAnswerLen (a : String) :
    (if truthy (some a) then (pySplit a).length else 0) = (pySplit a).length := by
  by_cases h : a = ""
  · subst h
    decide
  · have hb : (a == "") = false := beq_eq_false_iff_ne.mpr h
    simp [truthy, hb]

lemma countFollowups_none (l : List HistoryItem) : countFollowups none l = 0 := by
  cases l with
  | nil => rfl
  | cons x xs => simp [countFollowups, truthy]

lemma countFollowups_eq_go (t : String) (htne : t ≠ "") :
    ∀ l : List HistoryItem, countFollowups (some t) l = specTopicSuffixLen.go t l
  | [] => rfl
  | x :: xs => by
    have htr : truthy (some t) = true := by
      simp [truthy, beq_eq_false_iff_ne.mpr htne]
    unfold countFollowups specTopicSuffixLen.go
    rw [htr]
    by_cases hx : x.topic = some t
    · simp [hx, countFollowups_eq_go t htne xs]
    · simp [beq_eq_false_iff_ne.mpr hx, hx]

/-- Claim C3: on a non-empty history, should_change_topic holds exactly
when the followup count reaches 3, or the last question repeats among the
lower-cased questions of the last 3 turns, or the followup count reaches
2 while the last answer has at most 5 words; in particular a followup
count of 3 alone forces it. -/
theorem C3_should_change_topic_iff (history : List HistoryItem)
    (hne : history ≠ []) :
    ((analyze_interview_state history).should_change_topic = true ↔
      (3 ≤ (analyze_interview_state history).followup_count ∨
        1 < (((history.reverse.take 3).reverse.map
              (fun h2 => pyLower h2.question)).count
            (pyLower (history.getLast hne).question)) ∨
        (2 ≤ (analyze_interview_state history).followup_count ∧
          (pySplit (history.getLast hne).answer).length ≤ 5))) ∧
    (3 ≤ (analyze_interview_state history).followup_count →
      (analyze_interview_state history).should_change_topic = true) := by
  obtain ⟨last, restRev, hr⟩ := exists_reverse_cons history hne
  have hlast := getLast_eq_of_reverse_cons history last restRev hr hne
  rw [analyze_eq history last restRev hr, hlast, hr]
  have hiff :
      ((decide (countFollowups
            (if truthy last.topic then last.topic else none) (last :: restRev) ≥ 3) ||
          decide (1 < (((last :: restRev).take 3).reverse.map
              (fun h2 => pyLower h2.question)).count (pyLower last.question)) ||
          (decide (countFollowups
              (if truthy last.topic then last.topic else none) (last :: restRev) ≥ 2) &&
            decide ((if truthy (some last.answer) then (pySplit last.answer).length
              else 0) ≤ 5))) = true ↔
        (3 ≤ countFollowups
            (if truthy last.topic then last.topic else none) (last :: restRev) ∨
          1 < (((last :: restRev).take 3).reverse.map
              (fun h2 => pyLower h2.question)).count (pyLower last.question) ∨
          (2 ≤ countFollowups
              (if truthy last.topic then last.topic else none) (last :: restRev) ∧
            (pySplit last.answer).length ≤ 5))) := by
    rw [pyAnswerLen]
    simp [Bool.or_eq_true, Bool.and_eq_true, decide_eq_true_eq, ge_iff_le,
      or_assoc]
  refine ⟨hiff, fun h3 => ?_⟩
  exact hiff.mpr (Or.inl h3)

/-- A history whose last three turns share topic X and whose fourth-from-
last turn has topic Y, used by the C3 and C4 witnesses. -/
def histYXXX : List HistoryItem :=
  [{ question := "q1", answer := "long answer with many words here", topic := some "Y", phase := some "technical" },
   { question := "q2", answer := "a2", topic := some "X", phase := some "technical" },
   { question := "q3", answer := "a3", topic := some "X", phase := some "technical" },
   { question := "q4", answer := "a4", topic := some "X", phase := some "technical" }]

/-- Witness for C3: a followup count of 3 forces a topic change. -/
theorem C3_should_change_topic_iff_witness :
    (analyze_interview_state histYXXX).should_change_topic = true :=
  (C3_should_change_topic_iff histYXXX (by decide)).2 (by decide)

/-- Claim C4: on a non-empty history whose last turn carries a present
topic, followup_count is the length of the maximal same-topic suffix of
the history; with the topic absent it is 0. -/
theorem C4_followup_count_suffix (history : List HistoryItem)
    (hne : history ≠ []) :
    (∀ t : String, (history.getLast hne).topic = some t → t ≠ "" →
      (analyze_interview_state history).followup_count =
        specTopicSuffixLen t history) ∧
    (truthy (history.getLast hne).topic = false →
      (analyze_interview_state history).followup_count = 0) := by
  obtain ⟨last, restRev, hr⟩ := exists_reverse_cons history hne
  have hlast := getLast_eq_of_reverse_cons history last restRev hr hne
  rw [analyze_eq history last restRev hr, hlast]
  constructor
  · intro t ht htne
    have htr : truthy last.topic = true := by
      rw [ht]
      simp [truthy, beq_eq_false_iff_ne.mpr htne]
    show countFollowups (if truthy last.topic then last.topic else none)
        (last :: restRev) = specTopicSuffixLen t history
    rw [htr, if_pos rfl, ht, specTopicSuffixLen, hr]
    exact countFollowups_eq_go t htne (last :: restRev)
  · intro htr
    show countFollowups (if truthy last.topic then last.topic else none)
        (last :: restRev) = 0
    rw [htr]
    simp [countFollowups_none]

/-- Witness for C4: on the Y, X, X, X history the followup count is 3. -/
theorem C4_followup_count_suffix_witness :
    (analyze_interview_state histYXXX).followup_count = 3 := by
  have h := (C4_followup_count_suffix histYXXX (by decide)).1 "X" rfl (by decide)
  rw [h]
  decide

/-- Claim C6: on a non-empty history the analyzer's current_phase is the
phase of the last turn, defaulting to introduction when that field is
absent or empty. -/
theorem C6_current_phase_of_last (history : List HistoryItem)
    (hne : history ≠ []) :
    (∀ p : String, (history.getLast hne).phase = some p → p ≠ "" →
      (analyze_interview_state history).current_phase = p) ∧
    (((history.getLast hne).phase = none ∨ (history.getLast hne).phase = some "") →
      (analyze_interview_state history).current_phase = "introduction") := by
  obtain ⟨last, restRev, hr⟩ := exists_reverse_cons history hne
  have hlast := getLast_eq_of_reverse_cons history last restRev hr hne
  rw [analyze_eq history last restRev hr, hlast]
  constructor
  · intro p hp hpne
    show (if truthy last.phase then last.phase.getD "introduction"
      else "introduction") = p
    rw [hp]
    simp [truthy, beq_eq_false_iff_ne.mpr hpne]
  · intro hcase
    show (if truthy last.phase then last.phase.getD "introduction"
      else "introduction") = "introduction"
    rcases hcase with h0 | h0 <;> rw [h0] <;> simp [truthy]

/-- A history ending in a turn with an absent phase, for the C6 witness. -/
def histNoPhase : List HistoryItem :=
  [{ question := "q1", answer := "a1", topic := none, phase := none }]

/-- Witness for C6: an absent phase field defaults to introduction. -/
theorem C6_current_phase_of_last_witness :
    (analyze_interview_state histNoPhase).current_phase = "introduction" :=
  (C6_current_phase_of_last histNoPhase (by decide)).2 (Or.inl rfl)

/-- Claim C5, counterexample: on two brace-free inputs the normalizer
returns two different triples (each echoing its input as the question), so
there is no single fixed static fallback triple for the no-JSON case. -/
theorem C5_counterexample :
    clean_json_response (fun _ => none) "hello" ≠
      clean_json_response (fun _ => none) "world" := by decide

/-- Claim C5, amended: when no brace-delimited object is found the
normalizer returns the stripped raw text as the question with a static
generic tip and no topic; when the located substring fails to parse it
returns the fixed static triple with topic experience; both paths return
normally. -/
theorem C5_clean_json_fallbacks (parseJson : String → Option CleanedResponse)
    (s : String) :
    (find_json_match s = none →
      clean_json_response parseJson s =
        { question := pyStrip s
          advisor_tip := "Focus on providing specific examples."
          topic := none }) ∧
    (∀ m : String, find_json_match s = some m → parseJson m = none →
      clean_json_response parseJson s =
        { question := "Can you tell me more about your experience?"
          advisor_tip := "Provide specific examples with measurable results."
          topic := some "experience" }) := by
  constructor
  · intro hnone
    unfold clean_json_response
    rw [hnone]
  · intro m hm hp
    unfold clean_json_response
    rw [hm]
    dsimp only
    rw [hp]

/-- Witness for the amended C5 on a concrete brace-free input. -/
theorem C5_clean_json_fallbacks_witness :
    clean_json_response (fun _ => none) "hello" =
      { question := pyStrip "hello"
        advisor_tip := "Focus on providing specific examples."
        topic := none } :=
  (C5_clean_json_fallbacks (fun _ => none) "hello").1 (by decide)

/-- A closing-phase turn and an introduction-phase turn for the C7
counterexample. -/
def closingTurn : HistoryItem :=
  { question := "qc", answer := "ac", topic := none, phase := some "closing" }

def introTurn : HistoryItem :=
  { question := "qi", answer := "ai", topic := none, phase := some "introduction" }

/-- Claim C7, counterexample: a two-turn closing history ends the
interview, yet appending one introduction-phase turn makes
should_end_interview false again, so termination is not preserved by
every extension. -/
theorem C7_counterexample :
    (analyze_interview_state [closingTurn, closingTurn]).should_end_interview
        = true ∧
    (analyze_interview_state
        ([closingTurn, closingTurn] ++ [introTurn])).should_end_interview
        = false := by decide

/-- Claim C7, amended: termination reached through the 15-turn hard cap is
preserved by every extension of the history, since the turn count only
grows; termination reached through the closing-phase condition alone is
not. -/
theorem C7_end_monotone_after_cap (history ext : List HistoryItem)
    (h15 : 15 ≤ history.length) :
    (analyze_interview_state (history ++ ext)).should_end_interview = true := by
  apply should_end_of_long
  rw [List.length_append]
  omega

/-- Witness for the amended C7 at a concrete 15-turn history and a
one-turn extension. -/
theorem C7_end_monotone_after_cap_witness :
    (analyze_interview_state
        (List.replicate 15 sampleTurn ++ [introTurn])).should_end_interview
      = true :=
  C7_end_monotone_after_cap (List.replicate 15 sampleTurn) [introTurn] (by decide)

/-- Claim C8: the step handler always answers with HTTP success, and any
pipeline failure is replaced by the fixed fallback body with phase
general and is_completed false. -/
theorem C8_step_handler_never_errors (history : List HistoryItem)
    (pipeline : Except String InterviewResponse) :
    ((interview_step history pipeline).status = 200) ∧
    (∀ e : String, pipeline = Except.error e →
      interview_step history pipeline =
        { status := 200
          question := "Is there anything else you\x27d like to share about your experience?"
          advisor_tip := "Feel free to elaborate on any relevant experiences."
          phase := "general"
          topic := none
          is_followup := false
          is_completed := false
          progress :=
            { current_phase := "general"
              questions_asked := history.length
              phase_progress := "unknown"
              total_questions := none } }) := by
  constructor
  · cases pipeline <;> rfl
  · intro e he
    subst he
    rfl

/-- Witness for C8 at an empty history and a concrete failed pipeline. -/
theorem C8_step_handler_never_errors_witness :
    interview_step [] (Except.error "boom") =
      { status := 200
        question := "Is there anything else you\x27d like to share about your experience?"
        advisor_tip := "Feel free to elaborate on any relevant experiences."
        phase := "general"
        topic := none
        is_followup := false
        is_completed := false
        progress :=
          { current_phase := "general"
            questions_asked := 0
            phase_progress := "unknown"
            total_questions := none } } :=
  (C8_step_handler_never_errors [] (Except.error "boom")).2 "boom" rfl

/-- Claim C9: whenever the lower-cased normalized question is a substring
of, or contains, some recent question, the post-check replaces the result
with the fixed anti-repetition triple. -/
theorem C9_post_check_override (result : CleanedResponse)
    (recent_questions : List String)
    (h : recent_questions.any (fun recent_q =>
        listSubstr (pyLower result.question).toList recent_q.toList ||
          listSubstr recent_q.toList (pyLower result.question).toList) = true) :
    post_check result recent_questions = anti_repetition_fallback := by
  unfold post_check
  rw [if_pos h]

/-- Witness for C9 on a question contained in a recent question. -/
theorem C9_post_check_override_witness :
    post_check { question := "Tell me MORE", advisor_tip := "t", topic := none }
        ["x tell me more y"] = anti_repetition_fallback :=
  C9_post_check_override
    { question := "Tell me MORE", advisor_tip := "t", topic := none }
    ["x tell me more y"] (by decide)

/-- Claim C10: get_next_phase maps every string outside the five ordinary
phase names back to introduction. -/
theorem C10_get_next_phase_unknown (p : String) (h : p ∉ phases) :
    get_next_phase p = "introduction" := by
  have hnone : phases.findIdx? (fun q => q == p) = none := by
    rw [List.findIdx?_eq_none_iff]
    intro x hx
    exact beq_eq_false_iff_ne.mpr (fun e => h (e ▸ hx))
  unfold get_next_phase
  rw [hnone]

/-- Witness for C10 at the phase name completed. -/
theorem C10_get_next_phase_unknown_witness :
    get_next_phase "completed" = "introduction" :=
  C10_get_next_phase_unknown "completed" (by decide)

end VirtualInterviewer
